import Mathlib

/-!
Verification development for the Nomadix tourism dashboard.

The definitions below are a shallow embedding of the metric/insight engine of
`src/app.py` (the `main` dashboard pipeline: province and period filters, KPI
means, the head/tail trend delta, the groupby aggregations and the three
automatic insight boxes) and of the insight output of `run_simple.py`.
Dataframes are lists of records, pandas series are lists, pandas/numpy floats
are modelled by `PyFloat` (finite rational, signed infinity, or NaN), and an
operation that can raise (`idxmax` on an empty series, `meses[x-1]` on an
invalid month) returns an `Option`, `none` standing for the raised exception.
-/

namespace Nomadix

/-- Model of a Python/numpy float as produced by the pandas computations in the
dashboard: a finite rational, a signed infinity, or NaN. -/
inductive PyFloat where
  | finite (q : ℚ)
  | inf (pos : Bool)
  | nan
deriving DecidableEq

namespace PyFloat

/-- Float division as numpy/pandas perform it: `x / 0.0` is NaN when `x = 0`
and a signed infinity otherwise (a warning, not an exception). -/
def div : PyFloat → PyFloat → PyFloat
  | nan, _ => nan
  | _, nan => nan
  | finite a, finite b =>
      if b = 0 then (if a = 0 then nan else inf (decide (0 < a)))
      else finite (a / b)
  | finite _, inf _ => finite 0
  | inf s, finite b => if b < 0 then inf (!s) else inf s
  | inf _, inf _ => nan

/-- Float subtraction (IEEE semantics on the cases the dashboard reaches). -/
def sub : PyFloat → PyFloat → PyFloat
  | nan, _ => nan
  | _, nan => nan
  | finite a, finite b => finite (a - b)
  | inf s, finite _ => inf s
  | finite _, inf s => inf (!s)
  | inf s, inf t => if s = t then nan else inf s

/-- Float multiplication (IEEE semantics on the cases the dashboard reaches). -/
def mul : PyFloat → PyFloat → PyFloat
  | nan, _ => nan
  | _, nan => nan
  | finite a, finite b => finite (a * b)
  | inf s, finite b => if b = 0 then nan else inf (s == decide (0 < b))
  | finite a, inf s => if a = 0 then nan else inf (s == decide (0 < a))
  | inf s, inf t => inf (s == t)

/-- Python `abs` on a float. -/
def abs : PyFloat → PyFloat
  | finite q => finite |q|
  | inf _ => inf true
  | nan => nan

/-- The Python boolean test `x > 0` on a float; `False` for NaN. -/
def gtZero : PyFloat → Bool
  | finite q => decide (0 < q)
  | inf s => s
  | nan => false

end PyFloat

/-- A pandas timestamp at the granularity the dashboard uses: a linear day
count (what `max`, `- timedelta(days=n)` and `>=` act on) together with the
calendar month that `.dt.month` extracts. -/
structure PyDate where
  days : Int
  month : Nat
deriving DecidableEq

/-- A real `datetime` value always carries a calendar month between 1 and 12. -/
def PyDate.valid (d : PyDate) : Prop := 1 ≤ d.month ∧ d.month ≤ 12

/-- One row of the dashboard dataframe, with the columns built by
`load_sample_data` (app.py lines 80-87). -/
structure Record where
  data : PyDate
  provincia : String
  visitantes : Int
  receita : ℚ
  estadia_media : ℚ
  satisfacao : ℚ
deriving DecidableEq

/-- The period option chosen in the sidebar selectbox (app.py lines 108-111). -/
inductive Periodo where
  | ultimos6Meses
  | ultimoAno
  | ultimos2Anos
  | todosOsDados
deriving DecidableEq

/-- app.py lines 133-134: `if provincias_selecionadas: df =
df[df['provincia'].isin(provincias_selecionadas)]`.  An empty (falsy)
selection skips the filter entirely. -/
def provinceFilter (provincias_selecionadas : List String) (df : List Record) : List Record :=
  if provincias_selecionadas.isEmpty then df
  else df.filter (fun r => provincias_selecionadas.contains r.provincia)

/-- `hoje = df['data'].max()` (app.py line 137); `none` models NaT on an empty
frame. -/
def maxData (df : List Record) : Option Int :=
  (df.map (fun r => r.data.days)).max?

/-- `df['data'].min()` (app.py line 145). -/
def minData (df : List Record) : Option Int :=
  (df.map (fun r => r.data.days)).min?

/-- `data_inicio` as computed by the if/elif chain of app.py lines 137-145,
relative to the dataframe the code holds at that point (already
province-filtered). -/
def data_inicio (periodo : Periodo) (df : List Record) : Option Int :=
  match periodo with
  | .ultimos6Meses => (maxData df).map (fun hoje => hoje - 180)
  | .ultimoAno => (maxData df).map (fun hoje => hoje - 365)
  | .ultimos2Anos => (maxData df).map (fun hoje => hoje - 730)
  | .todosOsDados => minData df

/-- app.py line 147: `df_filtrado = df[df['data'] >= data_inicio]`.  A
comparison against NaT is elementwise false, so an empty frame stays empty. -/
def periodFilter (periodo : Periodo) (df : List Record) : List Record :=
  match data_inicio periodo df with
  | none => []
  | some d0 => df.filter (fun r => decide (d0 ≤ r.data.days))

/-- The filter pipeline of `main` (app.py lines 132-147): the province filter
runs first, then the period filter on its output. -/
def pipeline (periodo : Periodo) (sel : List String) (df : List Record) : List Record :=
  periodFilter periodo (provinceFilter sel df)

/-- pandas `Series.head(n)`. -/
def pdHead (n : Nat) (xs : List α) : List α := xs.take n

/-- pandas `Series.tail(n)`. -/
def pdTail (n : Nat) (xs : List α) : List α := xs.drop (xs.length - n)

/-- pandas `Series.mean()` over an integer column: NaN on the empty series,
otherwise the exact arithmetic mean. -/
def pdMeanInt (xs : List Int) : PyFloat :=
  if xs.isEmpty then .nan else .finite ((xs.sum : ℚ) / (xs.length : ℚ))

/-- pandas `Series.mean()` over a float column. -/
def pdMeanQ (xs : List ℚ) : PyFloat :=
  if xs.isEmpty then .nan else .finite (xs.sum / (xs.length : ℚ))

/-- app.py lines 156-157 applied to a visitor series:
`((series.tail(3).mean() / series.head(3).mean()) - 1) * 100`. -/
def deltaPercent (xs : List Int) : PyFloat :=
  (((pdMeanInt (pdTail 3 xs)).div (pdMeanInt (pdHead 3 xs))).sub (.finite 1)).mul (.finite 100)

/-- `delta_visitantes` (app.py lines 156-157) over the filtered dataframe. -/
def delta_visitantes (df_filtrado : List Record) : PyFloat :=
  deltaPercent (df_filtrado.map (fun r => r.visitantes))

/-- `estadia_media = df_filtrado['estadia_media'].mean()` (app.py line 175). -/
def kpiEstadiaMedia (df_filtrado : List Record) : PyFloat :=
  pdMeanQ (df_filtrado.map (fun r => r.estadia_media))

/-- `satisfacao_media = df_filtrado['satisfacao'].mean()` (app.py line 183). -/
def kpiSatisfacaoMedia (df_filtrado : List Record) : PyFloat :=
  pdMeanQ (df_filtrado.map (fun r => r.satisfacao))

/-- The trend insight box of app.py lines 298-303: the direction string
(`crescimento` when `crescimento > 0`, which is false for NaN) and the
displayed magnitude `abs(crescimento)`. -/
def tendencia (crescimento : PyFloat) : String × PyFloat :=
  ((if crescimento.gtZero then "crescimento" else "decrescimento"), crescimento.abs)

/-- pandas `df.groupby(k)[c].agg(...)`: one row per distinct key value present
in the frame, keys sorted ascending (the groupby default `sort=True`), each key
paired with the aggregate of the rows holding it. -/
def groupbyAgg {α β : Type} [LinearOrder α] [DecidableEq α]
    (key : Record → α) (agg : List Record → β) (df : List Record) : List (α × β) :=
  (List.insertionSort (· ≤ ·) (df.map key).dedup).map
    (fun k => (k, agg (df.filter (fun r => decide (key r = k)))))

/-- `df_filtrado.groupby('provincia')['visitantes'].sum()` (app.py line 289). -/
def df_provincia (df : List Record) : List (String × Int) :=
  groupbyAgg (fun r => r.provincia) (fun g => (g.map (fun r => r.visitantes)).sum) df

/-- `df_sazonalidade.groupby('mes')['visitantes'].mean()` where
`mes = data.dt.month` (app.py lines 258-260); each group is non-empty so the
mean is an exact rational. -/
def df_sazonal (df : List Record) : List (Nat × ℚ) :=
  groupbyAgg (fun r => r.data.month)
    (fun g => ((g.map (fun r => r.visitantes)).sum : ℚ) / (g.length : ℚ)) df

/-- pandas `Series.idxmax()`: the label of the first occurrence of the maximum
value; `none` models the `ValueError` raised on an empty series. -/
def idxmax {α β : Type} [LinearOrder β] (s : List (α × β)) : Option α :=
  match (s.map Prod.snd).max? with
  | none => none
  | some m => (s.find? (fun p => decide (p.2 = m))).map Prod.fst

/-- The month names of app.py lines 262-263. -/
def meses : List String :=
  ["Jan", "Fev", "Mar", "Abr", "Mai", "Jun", "Jul", "Ago", "Set", "Out", "Nov", "Dez"]

/-- `lambda x: meses[x-1]` (app.py line 264); `none` models the `IndexError`
on a month outside 1..12. -/
def mes_nome (x : Nat) : Option String := meses.get? (x - 1)

/-- Sequencing of a list of optional values: `none` as soon as one entry is
`none` (the raised exception aborts the run). -/
def seqOptions {γ : Type} : List (Option γ) → Option (List γ)
  | [] => some []
  | none :: _ => none
  | some a :: rest => (seqOptions rest).map (fun l => a :: l)

/-- The `mes_nome` column built by `df_sazonal['mes'].apply(lambda x:
meses[x-1])` (app.py line 264). -/
def mesNomeCol (sz : List (Nat × ℚ)) : Option (List String) :=
  seqOptions (sz.map (fun p => mes_nome p.1))

/-- One rendered insight box of app.py lines 283-314. -/
inductive Insight where
  | topDestination (provincia : String)
  | trend (direction : String) (magnitude : PyFloat)
  | peakSeason (mes : String)
deriving DecidableEq

/-- The three automatic insight boxes of app.py lines 283-314, in rendering
order.  `none` models an uncaught exception: `idxmax()` on an empty series
(lines 289 and 308) and `meses[x-1]` on an invalid month (line 264) raise; no
insight is ever omitted — on non-failing input all three are emitted. -/
def insightsAutomaticos (df_filtrado : List Record) : Option (List Insight) :=
  match idxmax (df_provincia df_filtrado) with
  | none => none
  | some provincia_top =>
    match mesNomeCol (df_sazonal df_filtrado) with
    | none => none
    | some _ =>
      match (idxmax (df_sazonal df_filtrado)).bind mes_nome with
      | none => none
      | some melhor_mes =>
        let crescimento := delta_visitantes df_filtrado
        some [Insight.topDestination provincia_top,
              Insight.trend (if crescimento.gtZero then "crescimento" else "decrescimento")
                crescimento.abs,
              Insight.peakSeason melhor_mes]

/-- Modelled from the spec (section 4.2): a ProvinceFilter that keeps exactly
the records whose province is a member of the set, so that an empty set keeps
nothing.  Used only to compare the spec's pipeline with the code's. -/
def specProvinceFilter (sel : List String) (df : List Record) : List Record :=
  df.filter (fun r => sel.contains r.provincia)

/-- Modelled from the spec (sections 2 and 4.1 data flow): PeriodFilter runs on
the full unfiltered store — its reference date is the max date of the full
store — and ProvinceFilter runs on its output. -/
def specPipeline (periodo : Periodo) (sel : List String) (df : List Record) : List Record :=
  specProvinceFilter sel (periodFilter periodo df)

/-- The trailing-window length in days of each bounded period option
(spec section 4.1); `none` for the unbounded "all data" option. -/
def windowDays : Periodo → Option Int
  | .ultimos6Meses => some 180
  | .ultimoAno => some 365
  | .ultimos2Anos => some 730
  | .todosOsDados => none

/-- The last three periods of a series, written the way the spec phrases it. -/
def specLast3 (xs : List Int) : List Int := (xs.reverse.take 3).reverse

/-- Exact arithmetic mean of an integer series, as the spec's formula uses. -/
def specMean (xs : List Int) : ℚ := (xs.sum : ℚ) / (xs.length : ℚ)

/-- One row of the fixed frame built by `generate_sample_data`
(run_simple.py lines 40-56). -/
structure LinhaSimples where
  provincia : String
  visitantes_2023 : Int
  visitantes_2024 : Int
  receita_aoa : Int
  hoteis : Int
  satisfacao : ℚ
deriving DecidableEq

/-- `generate_sample_data` (run_simple.py lines 46-56). -/
def generate_sample_data : List LinhaSimples :=
  [⟨"Luanda", 450000, 520000, 10312500000, 45, 42/10⟩,
   ⟨"Benguela", 120000, 135000, 2640000000, 18, 45/10⟩,
   ⟨"Huíla", 85000, 92000, 1732500000, 12, 47/10⟩,
   ⟨"Namibe", 65000, 78000, 1485000000, 8, 43/10⟩,
   ⟨"Kwanza Sul", 45000, 52000, 990000000, 6, 41/10⟩]

/-- The summary statistics printed by `run_console_version`
(run_simple.py lines 73-76); these do depend on the frame. -/
def estatisticasResumo (df : List LinhaSimples) : Int × Int × PyFloat × Option String :=
  ((df.map (fun r => r.visitantes_2024)).sum,
   (df.map (fun r => r.receita_aoa)).sum,
   pdMeanQ (df.map (fun r => r.satisfacao)),
   idxmax (df.map (fun r => (r.provincia, r.visitantes_2024))))

/-- The five "Insights Principais" strings shown by `run_streamlit_version`
(run_simple.py lines 299-310), as a function of the dataframe in scope; the
source list literal references no data. -/
def insightsPrincipais (_df : List LinhaSimples) : List String :=
  ["🏆 Luanda mantém liderança absoluta no setor turístico nacional",
   "📈 Crescimento consistente de 15% no número de visitantes",
   "⭐ Huíla apresenta o maior índice de satisfação dos turistas",
   "🌟 Grande potencial de desenvolvimento no turismo interior",
   "💰 Oportunidades de investimento em infraestrutura hoteleira"]

/-- The four "INSIGHTS PRINCIPAIS" bullets printed by `run_console_version`
(run_simple.py lines 78-82), as a function of the dataframe in scope; the
printed strings reference no data. -/
def consoleInsights (_df : List LinhaSimples) : List String :=
  ["• Luanda mantém liderança no turismo nacional",
   "• Crescimento médio de 15% no número de visitantes",
   "• Huíla apresenta maior índice de satisfação",
   "• Potencial de desenvolvimento no interior"]

/-- A late record of province Luanda, used as a concrete store element. -/
def rA : Record :=
  { data := { days := 1000, month := 1 }, provincia := "Luanda",
    visitantes := 100, receita := 0, estadia_media := 2, satisfacao := 4 }

/-- An early record of province Benguela, more than two years before `rA`. -/
def rB : Record :=
  { data := { days := 0, month := 3 }, provincia := "Benguela",
    visitantes := 50, receita := 0, estadia_media := 3, satisfacao := 5 }

/-! Helper lemmas about the embedded pandas operations. -/

theorem max?_spec {β : Type} [LinearOrder β] {l : List β} {m : β} (h : l.max? = some m) :
    m ∈ l ∧ ∀ b ∈ l, b ≤ m := by
  haveI : Std.Antisymm (fun a b : β => a ≤ b) := by
    constructor
    intro a b h1 h2
    exact le_antisymm h1 h2
  exact (List.max?_eq_some_iff (fun a => le_refl a) max_choice (fun _ _ _ => max_le_iff)).mp h

theorem min?_spec {β : Type} [LinearOrder β] {l : List β} {m : β} (h : l.min? = some m) :
    m ∈ l ∧ ∀ b ∈ l, m ≤ b := by
  haveI : Std.Antisymm (fun a b : β => a ≤ b) := by
    constructor
    intro a b h1 h2
    exact le_antisymm h1 h2
  exact (List.min?_eq_some_iff (fun a => le_refl a) min_choice (fun _ _ _ => le_min_iff)).mp h

theorem max?_isSome_of_ne_nil {β : Type} [LinearOrder β] {l : List β} (h : l ≠ []) :
    ∃ m, l.max? = some m := by
  cases hx : l.max? with
  | none => exact absurd (List.max?_eq_none_iff.mp hx) h
  | some m => exact ⟨m, rfl⟩

theorem idxmax_eq_some {α β : Type} [LinearOrder β] {s : List (α × β)} {k : α}
    (h : idxmax s = some k) :
    ∃ v as bs, s = as ++ (k, v) :: bs ∧ (∀ p ∈ s, p.2 ≤ v) ∧ ∀ p ∈ as, p.2 ≠ v := by
  unfold idxmax at h
  cases hm : (s.map Prod.snd).max? with
  | none => rw [hm] at h; exact absurd h (by simp)
  | some m =>
    rw [hm] at h
    obtain ⟨p, hfind, hk⟩ := Option.map_eq_some'.mp h
    have hspec := max?_spec hm
    obtain ⟨hp2, as, bs, hsplit, hprev⟩ := List.find?_eq_some.mp hfind
    have hpm : p.2 = m := of_decide_eq_true hp2
    have hpk : p = (k, m) := by
      cases p
      simp only [Prod.mk.injEq]
      exact ⟨hk, hpm⟩
    refine ⟨m, as, bs, by rw [hsplit, hpk], fun q hq => ?_, fun q hq => ?_⟩
    · exact hspec.2 _ (List.mem_map_of_mem _ hq)
    · have := hprev q hq
      simpa using this

theorem idxmax_isSome_of_ne_nil {α β : Type} [LinearOrder β] {s : List (α × β)} (h : s ≠ []) :
    ∃ k, idxmax s = some k := by
  have hmap : s.map Prod.snd ≠ [] := by simpa using h
  obtain ⟨m, hm⟩ := max?_isSome_of_ne_nil hmap
  obtain ⟨p, hp, hpm⟩ := List.mem_map.mp (max?_spec hm).1
  have hfind : (s.find? (fun p => decide (p.2 = m))).isSome := by
    rw [List.find?_isSome]
    exact ⟨p, hp, by simpa using hpm⟩
  obtain ⟨q, hq⟩ := Option.isSome_iff_exists.mp hfind
  refine ⟨q.1, ?_⟩
  unfold idxmax
  simp only [hm]
  rw [hq]
  rfl

theorem groupbyAgg_pairwise {α β : Type} [LinearOrder α] [DecidableEq α]
    (key : Record → α) (agg : List Record → β) (df : List Record) :
    List.Pairwise (fun p q : α × β => p.1 < q.1) (groupbyAgg key agg df) := by
  unfold groupbyAgg
  rw [List.pairwise_map]
  have hsorted : List.Sorted (· ≤ ·) (List.insertionSort (· ≤ ·) (df.map key).dedup) :=
    List.sorted_insertionSort _ _
  have hnodup : (List.insertionSort (· ≤ ·) (df.map key).dedup).Nodup :=
    (List.perm_insertionSort (· ≤ ·) (df.map key).dedup).symm.nodup (List.nodup_dedup _)
  exact hsorted.lt_of_le hnodup

theorem mem_groupbyAgg {α β : Type} [LinearOrder α] [DecidableEq α]
    {key : Record → α} {agg : List Record → β} {df : List Record} {k : α} {v : β} :
    (k, v) ∈ groupbyAgg key agg df ↔
      (∃ r ∈ df, key r = k) ∧ v = agg (df.filter (fun r => decide (key r = k))) := by
  unfold groupbyAgg
  rw [List.mem_map]
  constructor
  · rintro ⟨k', hk', heq⟩
    rw [Prod.mk.injEq] at heq
    obtain ⟨rfl, rfl⟩ := heq
    have : k' ∈ df.map key := by
      rw [← List.mem_dedup]
      exact (List.mem_insertionSort _).mp hk'
    obtain ⟨r, hr, hkey⟩ := List.mem_map.mp this
    exact ⟨⟨r, hr, hkey⟩, rfl⟩
  · rintro ⟨⟨r, hr, hkey⟩, rfl⟩
    refine ⟨k, ?_, rfl⟩
    rw [List.mem_insertionSort, List.mem_dedup]
    exact List.mem_map.mpr ⟨r, hr, hkey⟩

theorem groupbyAgg_ne_nil {α β : Type} [LinearOrder α] [DecidableEq α]
    {key : Record → α} {agg : List Record → β} {df : List Record} (h : df ≠ []) :
    groupbyAgg key agg df ≠ [] := by
  obtain ⟨r, hr⟩ := List.exists_mem_of_ne_nil df h
  have : (key r, agg (df.filter (fun x => decide (key x = key r)))) ∈ groupbyAgg key agg df :=
    mem_groupbyAgg.mpr ⟨⟨r, hr, rfl⟩, rfl⟩
  exact List.ne_nil_of_mem this

theorem mem_filter_ge {g : List Record} {M w : Int} (hM : maxData g = some M) (r : Record) :
    r ∈ g.filter (fun x => decide (M - w ≤ x.data.days)) ↔
      r ∈ g ∧ ∀ s ∈ g, s.data.days - w ≤ r.data.days := by
  have hspec := max?_spec (show (g.map fun x => x.data.days).max? = some M from hM)
  rw [List.mem_filter]
  constructor
  · rintro ⟨hr, hle⟩
    refine ⟨hr, fun s hs => ?_⟩
    have h1 : s.data.days ≤ M := hspec.2 _ (List.mem_map_of_mem _ hs)
    have h2 : M - w ≤ r.data.days := of_decide_eq_true hle
    omega
  · rintro ⟨hr, hall⟩
    obtain ⟨t, ht, htd⟩ := List.mem_map.mp hspec.1
    have := hall t ht
    exact ⟨hr, decide_eq_true (by omega)⟩

theorem pdMeanInt_of_ne_nil {xs : List Int} (h : xs ≠ []) :
    pdMeanInt xs = .finite ((xs.sum : ℚ) / (xs.length : ℚ)) := by
  simp [pdMeanInt, h]

theorem pdHead_ne_nil {xs : List Int} (h : xs ≠ []) : pdHead 3 xs ≠ [] := by
  unfold pdHead
  rw [Ne, List.take_eq_nil_iff]
  simp [h]

theorem pdTail_ne_nil {xs : List Int} (h : xs ≠ []) : pdTail 3 xs ≠ [] := by
  unfold pdTail
  rw [Ne, List.drop_eq_nil_iff]
  have : 0 < xs.length := List.length_pos.mpr h
  omega

theorem mes_nome_isSome {m : Nat} (h1 : 1 ≤ m) (h2 : m ≤ 12) : ∃ s, mes_nome m = some s := by
  unfold mes_nome
  have hlen : meses.length = 12 := rfl
  have : m - 1 < meses.length := by omega
  rw [List.get?_eq_get this]
  exact ⟨_, rfl⟩

theorem seqOptions_isSome {γ : Type} {l : List (Option γ)} (h : ∀ x ∈ l, ∃ a, x = some a) :
    ∃ l', seqOptions l = some l' := by
  induction l with
  | nil => exact ⟨[], rfl⟩
  | cons x rest ih =>
    obtain ⟨a, rfl⟩ := h x (by simp)
    obtain ⟨l', hl'⟩ := ih (fun y hy => h y (by simp [hy]))
    exact ⟨a :: l', by simp [seqOptions, hl']⟩

theorem PyFloat.div_finite_zero {a : ℚ} (h : 0 < a) :
    (PyFloat.finite a).div (PyFloat.finite 0) = PyFloat.inf true := by
  show (if (0 : ℚ) = 0 then if a = 0 then PyFloat.nan else PyFloat.inf (decide (0 < a))
        else PyFloat.finite (a / 0)) = PyFloat.inf true
  rw [if_pos rfl, if_neg h.ne', decide_eq_true h]

theorem PyFloat.div_finite_finite {a b : ℚ} (h : b ≠ 0) :
    (PyFloat.finite a).div (PyFloat.finite b) = PyFloat.finite (a / b) := by
  show (if b = 0 then if a = 0 then PyFloat.nan else PyFloat.inf (decide (0 < a))
        else PyFloat.finite (a / b)) = PyFloat.finite (a / b)
  rw [if_neg h]

theorem PyFloat.mul_inf_pos {s : Bool} {b : ℚ} (h : 0 < b) :
    (PyFloat.inf s).mul (PyFloat.finite b) = PyFloat.inf s := by
  show (if b = 0 then PyFloat.nan else PyFloat.inf (s == decide (0 < b))) = PyFloat.inf s
  rw [if_neg h.ne', decide_eq_true h]
  cases s <;> rfl

theorem idxmax_sorted_least {α β : Type} [LinearOrder α] [LinearOrder β] {s : List (α × β)}
    (hs : List.Pairwise (fun p q : α × β => p.1 < q.1) s) (hne : s ≠ []) :
    ∃ k v, idxmax s = some k ∧ (k, v) ∈ s ∧ (∀ p ∈ s, p.2 ≤ v) ∧
      ∀ q, (q, v) ∈ s → k ≤ q := by
  obtain ⟨k, hk⟩ := idxmax_isSome_of_ne_nil hne
  obtain ⟨v, as, bs, hsplit, hmax, hprev⟩ := idxmax_eq_some hk
  refine ⟨k, v, hk, by rw [hsplit]; simp, hmax, ?_⟩
  intro q hq
  rw [hsplit] at hq hs
  rcases List.mem_append.mp hq with hq | hq
  · exact absurd rfl (hprev _ hq)
  · rcases List.mem_cons.mp hq with heq | hq
    · rw [Prod.mk.injEq] at heq
      exact le_of_eq heq.1.symm
    · have hpair := (List.pairwise_append.mp hs).2.1
      exact le_of_lt ((List.pairwise_cons.mp hpair).1 _ hq)

theorem mem_filter_matchmax {g : List Record} {w : Int} (r : Record) :
    (r ∈ (match (maxData g).map (fun hoje => hoje - w) with
          | none => ([] : List Record)
          | some d0 => g.filter (fun x => decide (d0 ≤ x.data.days)))) ↔
      r ∈ g ∧ ∀ s ∈ g, s.data.days - w ≤ r.data.days := by
  cases hM : maxData g with
  | none =>
    have hg : g = [] := by
      have := List.max?_eq_none_iff.mp hM
      simpa using this
    simp [hg]
  | some M =>
    simp only [Option.map_some']
    exact mem_filter_ge hM r

/-! Claim theorems. -/

/-- C1 counterexample: on the non-empty store `[rB]`, the code's province
filter with the empty selection returns the store itself (the `if
provincias_selecionadas:` guard skips the filter), not the empty sequence the
claim asserts. -/
theorem provinceFilter_empty_cex :
    provinceFilter [] [rB] = [rB] ∧ provinceFilter [] [rB] ≠ [] :=
  ⟨rfl, by decide⟩

/-- C1 (amended): applying ProvinceFilter with an empty set of selected
provinces skips the filter and returns the record store unchanged, so on a
non-empty store nothing is removed and downstream aggregates see the full
data. -/
theorem provinceFilter_empty_skips (df : List Record) : provinceFilter [] df = df := rfl

/-- C2 counterexample: on the two-record store `[rA, rB]` with selection
`Benguela` and period "last 6 months", the code keeps `rB` (the reference
date is the max of the province-filtered frame), while the spec's
period-first pipeline returns the empty sequence. -/
theorem pipeline_order_cex :
    pipeline .ultimos6Meses ["Benguela"] [rA, rB] = [rB] ∧
    specPipeline .ultimos6Meses ["Benguela"] [rA, rB] = [] ∧
    pipeline .ultimos6Meses ["Benguela"] [rA, rB] ≠
      specPipeline .ultimos6Meses ["Benguela"] [rA, rB] :=
  ⟨by decide, by decide, by decide⟩

/-- C2 (amended): the pipeline applies ProvinceFilter first; for each bounded
period option with window w (180/365/730 days), a record survives the
pipeline iff it survives the province filter and its date is within w days of
every (hence of the maximum) date of the province-filtered store — so the
reference date does depend on the province selection. -/
theorem pipeline_membership (periodo : Periodo) (w : Int) (hw : windowDays periodo = some w)
    (sel : List String) (df : List Record) (r : Record) :
    r ∈ pipeline periodo sel df ↔
      r ∈ provinceFilter sel df ∧
        ∀ s ∈ provinceFilter sel df, s.data.days - w ≤ r.data.days := by
  cases periodo with
  | todosOsDados => exact absurd hw (by simp [windowDays])
  | ultimos6Meses =>
    have hw' : w = 180 := by
      have : some (180 : Int) = some w := hw
      exact (Option.some.injEq _ _ ▸ this).symm
    subst hw'
    exact mem_filter_matchmax r
  | ultimoAno =>
    have hw' : w = 365 := by
      have : some (365 : Int) = some w := hw
      exact (Option.some.injEq _ _ ▸ this).symm
    subst hw'
    exact mem_filter_matchmax r
  | ultimos2Anos =>
    have hw' : w = 730 := by
      have : some (730 : Int) = some w := hw
      exact (Option.some.injEq _ _ ▸ this).symm
    subst hw'
    exact mem_filter_matchmax r

/-- Witness for the amended C2 theorem at a concrete period, selection, store
and record. -/
theorem pipeline_membership_witness :
    windowDays .ultimos6Meses = some 180 ∧
    (rB ∈ pipeline .ultimos6Meses ["Benguela"] [rA, rB] ↔
      rB ∈ provinceFilter ["Benguela"] [rA, rB] ∧
        ∀ s ∈ provinceFilter ["Benguela"] [rA, rB], s.data.days - 180 ≤ rB.data.days) :=
  ⟨rfl, pipeline_membership .ultimos6Meses 180 rfl ["Benguela"] [rA, rB] rB⟩

/-- C5 counterexample: on the empty record sequence both KPI means are NaN —
pandas' missing-value float, which the claim says must not be returned — and
the code has no distinct NoData marker. -/
theorem medias_nan_cex :
    kpiEstadiaMedia [] = PyFloat.nan ∧ kpiSatisfacaoMedia [] = PyFloat.nan :=
  ⟨rfl, rfl⟩

/-- C5 (amended): the KPI means perform no empty-input signalling: on the
empty sequence `Series.mean()` yields NaN (not a distinct NoData value and
not 0), and on a non-empty sequence the finite arithmetic means. -/
theorem medias_spec (df : List Record) :
    (df = [] → kpiEstadiaMedia df = PyFloat.nan ∧ kpiSatisfacaoMedia df = PyFloat.nan) ∧
    (df ≠ [] →
      kpiEstadiaMedia df =
        PyFloat.finite ((df.map (fun r => r.estadia_media)).sum / (df.length : ℚ)) ∧
      kpiSatisfacaoMedia df =
        PyFloat.finite ((df.map (fun r => r.satisfacao)).sum / (df.length : ℚ))) := by
  constructor
  · rintro rfl
    exact ⟨rfl, rfl⟩
  · intro h
    have h1 : df.map (fun r => r.estadia_media) ≠ [] := by simpa using h
    have h2 : df.map (fun r => r.satisfacao) ≠ [] := by simpa using h
    constructor
    · simp [kpiEstadiaMedia, pdMeanQ, h1]
    · simp [kpiSatisfacaoMedia, pdMeanQ, h2]

/-- Witness for the amended C5 theorem on the empty store and on `[rA]`. -/
theorem medias_spec_witness :
    (([] : List Record) = [] ∧
      kpiEstadiaMedia [] = PyFloat.nan ∧ kpiSatisfacaoMedia [] = PyFloat.nan) ∧
    (([rA] : List Record) ≠ [] ∧
      kpiEstadiaMedia [rA] =
        PyFloat.finite (([rA].map (fun r => r.estadia_media)).sum / (([rA] : List Record).length : ℚ)) ∧
      kpiSatisfacaoMedia [rA] =
        PyFloat.finite (([rA].map (fun r => r.satisfacao)).sum / (([rA] : List Record).length : ℚ))) :=
  ⟨⟨rfl, (medias_spec []).1 rfl⟩, ⟨by decide, (medias_spec [rA]).2 (by decide)⟩⟩

/-- C9: with the "all data" period option the period filter returns every
record store unchanged (identity law). -/
theorem periodFilter_all_id (df : List Record) : periodFilter .todosOsDados df = df := by
  unfold periodFilter data_inicio
  cases hm : minData df with
  | none =>
    have h1 : df = [] := by
      have := List.min?_eq_none_iff.mp hm
      simpa using this
    simp [h1]
  | some m =>
    obtain ⟨-, hall⟩ := min?_spec (show (df.map fun r => r.data.days).min? = some m from hm)
    simp only []
    rw [List.filter_eq_self]
    intro a ha
    exact decide_eq_true (hall _ (List.mem_map_of_mem _ ha))

/-- C10: the insight texts of the simplified version are fixed constants: for
every pair of input frames, run_streamlit_version's five "Insights
Principais" strings coincide, and run_console_version's four insight bullets
coincide — the emitted insights do not depend on the data. -/
theorem insights_constant (d1 d2 : List LinhaSimples) :
    insightsPrincipais d1 = insightsPrincipais d2 ∧
      consoleInsights d1 = consoleInsights d2 :=
  ⟨rfl, rfl⟩

/-- C3 counterexample: with a head-window mean of exactly zero the code
produces the infinite float (no explicit undefined-trend result exists) and
it flows unguarded into the trend insight's displayed direction and
magnitude. -/
theorem delta_inf_cex :
    deltaPercent [0, 0, 0, 5, 5, 5] = PyFloat.inf true ∧
    tendencia (deltaPercent [0, 0, 0, 5, 5, 5]) = ("crescimento", PyFloat.inf true) := by
  have h : deltaPercent [0, 0, 0, 5, 5, 5] = PyFloat.inf true := by
    norm_num [deltaPercent, pdMeanInt, pdHead, pdTail, PyFloat.div, PyFloat.sub, PyFloat.mul]
  exact ⟨h, by rw [h]; rfl⟩

/-- C3 (amended): the trend delta is computed with no guard and no explicit
undefined-trend value: an empty series yields NaN (rendered as
`decrescimento` with NaN magnitude), a zero head-window mean with positive
tail sum yields +infinity in the insight, and only a non-zero head-window
mean yields a finite delta. -/
theorem delta_unguarded (xs : List Int) :
    (xs = [] → deltaPercent xs = PyFloat.nan ∧
      tendencia (deltaPercent xs) = ("decrescimento", PyFloat.nan)) ∧
    (pdMeanInt (pdHead 3 xs) = PyFloat.finite 0 → 0 < (pdTail 3 xs).sum →
      deltaPercent xs = PyFloat.inf true ∧
      tendencia (deltaPercent xs) = ("crescimento", PyFloat.inf true)) ∧
    (∀ q, pdMeanInt (pdHead 3 xs) = PyFloat.finite q → q ≠ 0 →
      ∃ qr, deltaPercent xs = PyFloat.finite qr) := by
  refine ⟨?_, ?_, ?_⟩
  · rintro rfl
    exact ⟨rfl, rfl⟩
  · intro hh hs
    have hxs : xs ≠ [] := by
      rintro rfl
      simp [pdHead, pdMeanInt] at hh
    have htail : pdTail 3 xs ≠ [] := pdTail_ne_nil hxs
    have ht0 : (0 : ℚ) < ((pdTail 3 xs).sum : ℚ) / ((pdTail 3 xs).length : ℚ) := by
      apply div_pos
      · exact_mod_cast hs
      · exact_mod_cast List.length_pos.mpr htail
    have hdelta : deltaPercent xs = PyFloat.inf true := by
      unfold deltaPercent
      rw [pdMeanInt_of_ne_nil htail, hh, PyFloat.div_finite_zero ht0]
      rw [show (PyFloat.inf true).sub (PyFloat.finite 1) = PyFloat.inf true from rfl]
      exact PyFloat.mul_inf_pos (by norm_num)
    exact ⟨hdelta, by rw [hdelta]; rfl⟩
  · intro q hh hq
    have hxs : xs ≠ [] := by
      rintro rfl
      simp [pdHead, pdMeanInt] at hh
    have htail : pdTail 3 xs ≠ [] := pdTail_ne_nil hxs
    refine ⟨((((pdTail 3 xs).sum : ℚ) / ((pdTail 3 xs).length : ℚ)) / q - 1) * 100, ?_⟩
    unfold deltaPercent
    rw [pdMeanInt_of_ne_nil htail, hh, PyFloat.div_finite_finite hq]
    rfl

/-- Witness for the amended C3 theorem: the empty series, a zero-head-mean
series and a regular series. -/
theorem delta_unguarded_witness :
    (([] : List Int) = [] ∧ deltaPercent [] = PyFloat.nan ∧
      tendencia (deltaPercent []) = ("decrescimento", PyFloat.nan)) ∧
    (pdMeanInt (pdHead 3 [0, 0, 0, 5, 5, 5]) = PyFloat.finite 0 ∧
      0 < (pdTail 3 ([0, 0, 0, 5, 5, 5] : List Int)).sum ∧
      deltaPercent [0, 0, 0, 5, 5, 5] = PyFloat.inf true ∧
      tendencia (deltaPercent [0, 0, 0, 5, 5, 5]) = ("crescimento", PyFloat.inf true)) ∧
    (pdMeanInt (pdHead 3 [100, 110, 120]) = PyFloat.finite 110 ∧ (110 : ℚ) ≠ 0 ∧
      ∃ qr, deltaPercent [100, 110, 120] = PyFloat.finite qr) := by
  have h0 : pdMeanInt (pdHead 3 [0, 0, 0, 5, 5, 5]) = PyFloat.finite 0 := by
    norm_num [pdMeanInt, pdHead]
  have hs : 0 < (pdTail 3 ([0, 0, 0, 5, 5, 5] : List Int)).sum := by decide
  have h110 : pdMeanInt (pdHead 3 [100, 110, 120]) = PyFloat.finite 110 := by
    norm_num [pdMeanInt, pdHead]
  refine ⟨⟨rfl, (delta_unguarded []).1 rfl⟩, ?_, ?_⟩
  · obtain ⟨ha, hb⟩ := (delta_unguarded [0, 0, 0, 5, 5, 5]).2.1 h0 hs
    exact ⟨h0, hs, ha, hb⟩
  · exact ⟨h110, by norm_num, (delta_unguarded [100, 110, 120]).2.2 110 h110 (by norm_num)⟩

/-- C4 counterexample: on the empty filtered frame (empty by_province, empty
by_month, NaN trend) the insight code raises — `idxmax()` of an empty
sequence, modelled `none` — instead of returning the empty insight
sequence. -/
theorem insights_empty_cex :
    insightsAutomaticos [] = none ∧ insightsAutomaticos [] ≠ some [] :=
  ⟨rfl, by decide⟩

/-- C4 (amended): with all three inputs degenerate (the empty filtered frame)
the insight block raises an error rather than returning an empty sequence;
on any non-empty frame with calendar-valid dates nothing is ever omitted:
exactly the three insights are emitted, in fixed order. -/
theorem insights_total_or_raise (df : List Record) :
    insightsAutomaticos [] = none ∧
    (df ≠ [] → (∀ r ∈ df, r.data.valid) →
      ∃ p d m, insightsAutomaticos df =
        some [Insight.topDestination p, Insight.trend d (delta_visitantes df).abs,
              Insight.peakSeason m]) := by
  refine ⟨rfl, fun hne hval => ?_⟩
  have hprov : df_provincia df ≠ [] := by
    unfold df_provincia
    exact groupbyAgg_ne_nil hne
  obtain ⟨p, hp⟩ := idxmax_isSome_of_ne_nil hprov
  have hmonth : ∀ q ∈ df_sazonal df, ∃ s, mes_nome q.1 = some s := by
    rintro ⟨m, v⟩ hq
    have hm := (mem_groupbyAgg.mp (show ((m, v) : Nat × ℚ) ∈ groupbyAgg
      (fun r => r.data.month)
      (fun g => ((g.map (fun r => r.visitantes)).sum : ℚ) / (g.length : ℚ)) df from hq)).1
    obtain ⟨r, hr, hkey⟩ := hm
    obtain ⟨hv1, hv2⟩ := hval r hr
    exact mes_nome_isSome (hkey ▸ hv1) (hkey ▸ hv2)
  obtain ⟨nomes, hcol⟩ : ∃ l, mesNomeCol (df_sazonal df) = some l := by
    apply seqOptions_isSome
    intro x hx
    obtain ⟨q, hq, rfl⟩ := List.mem_map.mp hx
    exact hmonth q hq
  have hsaz : df_sazonal df ≠ [] := by
    unfold df_sazonal
    exact groupbyAgg_ne_nil hne
  obtain ⟨mk, hmk⟩ := idxmax_isSome_of_ne_nil hsaz
  obtain ⟨v, as, bs, hsplit, -, -⟩ := idxmax_eq_some hmk
  have hmkmem : ((mk, v) : Nat × ℚ) ∈ df_sazonal df := by
    rw [hsplit]
    simp
  obtain ⟨nome, hnome⟩ := hmonth (mk, v) hmkmem
  refine ⟨p, (if (delta_visitantes df).gtZero then "crescimento" else "decrescimento"),
    nome, ?_⟩
  unfold insightsAutomaticos
  rw [hp, hcol, hmk]
  simp [hnome]

/-- Witness for the amended C4 theorem at the empty store and at `[rA]`. -/
theorem insights_total_or_raise_witness :
    (insightsAutomaticos [] = none) ∧
    (([rA] : List Record) ≠ [] ∧ (∀ r ∈ ([rA] : List Record), r.data.valid) ∧
      ∃ p d m, insightsAutomaticos [rA] =
        some [Insight.topDestination p, Insight.trend d (delta_visitantes [rA]).abs,
              Insight.peakSeason m]) := by
  have h1 : ([rA] : List Record) ≠ [] := by decide
  have h2 : ∀ r ∈ ([rA] : List Record), r.data.valid := by
    intro r hr
    rcases List.mem_singleton.mp hr with rfl
    exact ⟨by decide, by decide⟩
  exact ⟨(insights_total_or_raise []).1, h1, h2, (insights_total_or_raise [rA]).2 h1 h2⟩

/-- C6: for a chronologically ordered visitor series with a non-zero
head-window mean, the code's delta equals the spec's formula
(mean(last 3 periods) / mean(first 3 periods) − 1) × 100; on a series of
fewer than 3 periods the head and tail windows are both the whole series
(they overlap). -/
theorem trend_formula (xs : List Int) (h1 : xs ≠ []) (h2 : specMean (xs.take 3) ≠ 0) :
    deltaPercent xs =
      PyFloat.finite ((specMean (specLast3 xs) / specMean (xs.take 3) - 1) * 100) ∧
    (xs.length < 3 → pdHead 3 xs = xs ∧ pdTail 3 xs = xs) := by
  have hhead : pdHead 3 xs ≠ [] := pdHead_ne_nil h1
  have htail : pdTail 3 xs ≠ [] := pdTail_ne_nil h1
  have hlast : specLast3 xs = pdTail 3 xs := by
    unfold specLast3 pdTail
    rw [List.reverse_take, List.reverse_reverse, List.length_reverse]
  have hmh : pdMeanInt (pdHead 3 xs) = PyFloat.finite (specMean (xs.take 3)) := by
    rw [pdMeanInt_of_ne_nil hhead]
    rfl
  have hmt : pdMeanInt (pdTail 3 xs) = PyFloat.finite (specMean (specLast3 xs)) := by
    rw [pdMeanInt_of_ne_nil htail, hlast]
    rfl
  constructor
  · unfold deltaPercent
    rw [hmt, hmh]
    simp [PyFloat.div, PyFloat.sub, PyFloat.mul, h2]
  · intro hlen
    constructor
    · unfold pdHead
      exact List.take_of_length_le (by omega)
    · unfold pdTail
      have h3 : xs.length - 3 = 0 := by omega
      rw [h3]
      rfl

/-- Witness for C6 on the three-period series 100, 110, 120. -/
theorem trend_formula_witness :
    (([100, 110, 120] : List Int) ≠ [] ∧
      specMean (([100, 110, 120] : List Int).take 3) ≠ 0) ∧
    (deltaPercent [100, 110, 120] =
      PyFloat.finite ((specMean (specLast3 [100, 110, 120]) /
        specMean (([100, 110, 120] : List Int).take 3) - 1) * 100) ∧
    (([100, 110, 120] : List Int).length < 3 →
      pdHead 3 ([100, 110, 120] : List Int) = [100, 110, 120] ∧
      pdTail 3 ([100, 110, 120] : List Int) = [100, 110, 120])) := by
  have ha : ([100, 110, 120] : List Int) ≠ [] := by decide
  have hb : specMean (([100, 110, 120] : List Int).take 3) ≠ 0 := by
    norm_num [specMean]
  exact ⟨⟨ha, hb⟩, trend_formula [100, 110, 120] ha hb⟩

/-- C7: both tie-breaks are deterministic firsts of the sorted groupby key
order: `idxmax` over the province groupby returns a province of maximal total
visitors that is lexically least among the provinces attaining the maximum,
and over the month groupby a month of maximal mean visitors that is the
lowest month number attaining the maximum. -/
theorem tie_break_deterministic (df : List Record) (h : df ≠ []) :
    (∃ p v, idxmax (df_provincia df) = some p ∧ (p, v) ∈ df_provincia df ∧
      (∀ q ∈ df_provincia df, q.2 ≤ v) ∧ ∀ q, (q, v) ∈ df_provincia df → p ≤ q) ∧
    (∃ m v, idxmax (df_sazonal df) = some m ∧ (m, v) ∈ df_sazonal df ∧
      (∀ q ∈ df_sazonal df, q.2 ≤ v) ∧ ∀ q, (q, v) ∈ df_sazonal df → m ≤ q) := by
  constructor
  · unfold df_provincia
    exact idxmax_sorted_least (groupbyAgg_pairwise _ _ df) (groupbyAgg_ne_nil h)
  · unfold df_sazonal
    exact idxmax_sorted_least (groupbyAgg_pairwise _ _ df) (groupbyAgg_ne_nil h)

/-- Witness for C7 on the singleton store `[rA]`. -/
theorem tie_break_deterministic_witness :
    (([rA] : List Record) ≠ []) ∧
    ((∃ p v, idxmax (df_provincia [rA]) = some p ∧ (p, v) ∈ df_provincia [rA] ∧
      (∀ q ∈ df_provincia [rA], q.2 ≤ v) ∧ ∀ q, (q, v) ∈ df_provincia [rA] → p ≤ q) ∧
    (∃ m v, idxmax (df_sazonal [rA]) = some m ∧ (m, v) ∈ df_sazonal [rA] ∧
      (∀ q ∈ df_sazonal [rA], q.2 ≤ v) ∧ ∀ q, (q, v) ∈ df_sazonal [rA] → m ≤ q)) :=
  ⟨by decide, tie_break_deterministic [rA] (by decide)⟩

/-- C8: every key of the by_month mapping is a calendar month in 1..12 with at
least one contributing record; months with no records in the filtered window
cannot appear. -/
theorem by_month_keys_valid (df : List Record) (hval : ∀ r ∈ df, r.data.valid) :
    ∀ m v, (m, v) ∈ df_sazonal df → (1 ≤ m ∧ m ≤ 12) ∧ ∃ r ∈ df, r.data.month = m := by
  intro m v hm
  unfold df_sazonal at hm
  obtain ⟨⟨r, hr, hkey⟩, -⟩ := mem_groupbyAgg.mp hm
  obtain ⟨hv1, hv2⟩ := hval r hr
  exact ⟨⟨hkey ▸ hv1, hkey ▸ hv2⟩, r, hr, hkey⟩

/-- Witness for C8 on the singleton store `[rA]`. -/
theorem by_month_keys_valid_witness :
    (∀ r ∈ ([rA] : List Record), r.data.valid) ∧
    (∀ m v, (m, v) ∈ df_sazonal [rA] →
      (1 ≤ m ∧ m ≤ 12) ∧ ∃ r ∈ ([rA] : List Record), r.data.month = m) := by
  have h : ∀ r ∈ ([rA] : List Record), r.data.valid := by
    intro r hr
    rcases List.mem_singleton.mp hr with rfl
    exact ⟨by decide, by decide⟩
  exact ⟨h, by_month_keys_valid [rA] h⟩

end Nomadix
